import Mathlib

/-!
# vmware-helper: a shallow embedding of `src/main.c`

The program is sequential C code over global variables that calls the VIX API,
prints to stderr and leaves through `exit()`.  The embedding passes the globals
explicitly (`Globals`), records every API call and every printed line in an
ordered trace (`Globals.out`), and takes the answers of the API from a scripted
mock (`MockApi`).  The `do … while` loop of `vmStart` is bounded by a fuel
argument; a run whose fuel ends inside the loop is reported as `Res.polling`.
-/

namespace VmwareHelper

/-- Handles of the VIX API that the program stores in `hostHandle`, `jobHandle`
and `vmHandle`.  `invalid` is `VIX_INVALID_HANDLE`; the others name the object
the API handed out. -/
inductive Handle where
  | invalid
  | connectJob
  | openJob
  | powerOnJob
  | powerOffJob
  | suspendJob
  | host
  | vm
  deriving DecidableEq, Repr

/-- Observable actions of a run, in program order: printed output, calls into
the VIX API (with the answer the API gave where the call has one) and
`Sleep`. -/
inductive Event where
  /-- The call `usage()`: the usage text on stderr. -/
  | usage
  /-- One line `fprintf(stderr, "[%s] text\n", getTime())`; the time stamp is
  not recorded. -/
  | log (text : String)
  /-- The call `VixHost_Connect(...)`. -/
  | hostConnect
  /-- The call `VixVM_Open(hostHandle, vmxPath, ...)`. -/
  | vmOpen (hostH : Handle) (vmxPath : String)
  /-- The call `VixJob_Wait(jobHandle, ...)` and the error value it returned. -/
  | jobWait (job : Handle) (err : Nat)
  /-- The call `Vix_GetProperties(vmHandle, VIX_PROPERTY_VM_POWER_STATE, ...)`,
  the error value it returned and the power state it stored. -/
  | getProperties (vmH : Handle) (err : Nat) (state : Nat)
  /-- The call `VixVM_PowerOn(vmHandle, powerOptions, ...)`. -/
  | powerOn (vmH : Handle) (options : Nat)
  /-- The call `VixVM_PowerOff(vmHandle, options, ...)`. -/
  | powerOff (vmH : Handle) (options : Nat)
  /-- The call `VixVM_Suspend(vmHandle, options, ...)`. -/
  | suspend (vmH : Handle) (options : Nat)
  /-- The call `Vix_ReleaseHandle(h)`. -/
  | releaseHandle (h : Handle)
  /-- The call `VixHost_Disconnect(h)`. -/
  | disconnect (h : Handle)
  /-- The call `Sleep(ms)`. -/
  | sleep (ms : Nat)
  deriving DecidableEq, Repr

/-- The constants and function-like definitions of `vmware/vix.h` that
`main.c` uses.  The header is not part of the sources, so the program is
embedded over an arbitrary header. -/
structure VixHeader where
  VIX_POWERSTATE_POWERED_ON : Nat
  VIX_POWERSTATE_POWERED_OFF : Nat
  VIX_VMPOWEROP_NORMAL : Nat
  VIX_VMPOWEROP_LAUNCH_GUI : Nat
  VIX_FAILED : Nat → Bool
  VIX_ERROR_CODE : Nat → Nat

/-- Modelled from the spec: the header `vmware/vix.h`, which is missing from the
sources.  The power state is a bitmask with a powered-on and a powered-off bit,
power-on takes a UI option, a call fails when its error value is not `VIX_OK`
(zero), and the numeric error code is the low 16 bits of the error value.  The
numbers are those of the VIX SDK. -/
def vixSdk : VixHeader where
  VIX_POWERSTATE_POWERED_ON := 0x0008
  VIX_POWERSTATE_POWERED_OFF := 0x0002
  VIX_VMPOWEROP_NORMAL := 0
  VIX_VMPOWEROP_LAUNCH_GUI := 0x0200
  VIX_FAILED := fun err => err != 0
  VIX_ERROR_CODE := fun err => err % 65536

/-- A scripted VIX API: the error value each job reports, and for the i-th call
of `Vix_GetProperties` (counted from 0) the error value and the power state. -/
structure MockApi where
  connect : Nat
  openVM : Nat
  getProperties : Nat → Nat × Nat
  powerOn : Nat
  powerOff : Nat
  suspend : Nat

/-- The global variables of `main.c` (lines 62-71), followed by two fields of
the embedding: the number of `Vix_GetProperties` calls made so far and the
trace of the run. -/
structure Globals where
  progName : String
  err : Nat
  vmxPath : String
  command : String
  powerState : Nat
  powerOptions : Nat
  hostHandle : Handle
  jobHandle : Handle
  vmHandle : Handle
  probes : Nat
  out : List Event
  deriving DecidableEq, Repr

/-- How a piece of the program ends: it returns to its caller, it calls
`exit(status)`, or the fuel of the polling loop ran out while it was still
polling. -/
inductive Res where
  | next (g : Globals)
  | exited (status : Nat) (g : Globals)
  | polling (g : Globals)
  deriving DecidableEq, Repr

/-- Sequencing of C statements: the continuation runs only when the first part
returned. -/
def Res.andThen (r : Res) (k : Globals → Res) : Res :=
  match r with
  | .next g => k g
  | .exited s g => .exited s g
  | .polling g => .polling g

/-- The globals at the end of the piece. -/
def Res.globals : Res → Globals
  | .next g => g
  | .exited _ g => g
  | .polling g => g

/-- The trace at the end of the piece. -/
def Res.trace (r : Res) : List Event := r.globals.out

/-- The exit status, when the process has exited. -/
def Res.status : Res → Option Nat
  | .exited s _ => some s
  | _ => none

def EXIT_SUCCESS : Nat := 0

def EXIT_FAILURE : Nat := 1

def POLLINTERVAL : Nat := 1000

def STARTUPWAIT : Nat := 0

/-- The text `printf` produces for `%d`: the low 32 bits of the argument read
as a signed integer. -/
def fmtD (n : Nat) : String :=
  if n % 2 ^ 32 < 2 ^ 31 then toString (n % 2 ^ 32)
  else "-" ++ toString (2 ^ 32 - n % 2 ^ 32)

/-- Appends one event to the trace. -/
def emit (e : Event) (g : Globals) : Globals :=
  { g with out := g.out ++ [e] }

/-- The initial values of the globals (lines 62-71). -/
def initGlobals (vix : VixHeader) : Globals where
  progName := ""
  err := 0
  vmxPath := ""
  command := ""
  powerState := 0
  powerOptions := vix.VIX_VMPOWEROP_LAUNCH_GUI
  hostHandle := .invalid
  jobHandle := .invalid
  vmHandle := .invalid
  probes := 0
  out := []

/-- The function `usage` (lines 83-103). -/
def usage (g : Globals) : Globals :=
  emit .usage g

/-- The function `errorAbort` (lines 118-125). -/
def errorAbort (g : Globals) : Res :=
  let g := emit (.log "ABORTED") g
  let g := emit (.releaseHandle g.jobHandle) g
  let g := emit (.releaseHandle g.vmHandle) g
  let g := emit (.disconnect g.hostHandle) g
  .exited EXIT_FAILURE g

/-- The function `vmConnectOpen` (lines 127-163).  `VixJob_Wait` stores the
result handle only when the job succeeded. -/
def vmConnectOpen (vix : VixHeader) (api : MockApi) (g : Globals) : Res :=
  let g := emit .hostConnect g
  let g := { g with jobHandle := .connectJob }
  let g := emit (.jobWait g.jobHandle api.connect) g
  let g := { g with err := api.connect,
                    hostHandle := if vix.VIX_FAILED api.connect then g.hostHandle else .host }
  if vix.VIX_FAILED g.err then
    errorAbort (emit (.log ("Failed to connect to host [" ++ fmtD (vix.VIX_ERROR_CODE g.err) ++ "]")) g)
  else
    let g := emit (.releaseHandle g.jobHandle) g
    let g := emit (.vmOpen g.hostHandle g.vmxPath) g
    let g := { g with jobHandle := .openJob }
    let g := emit (.jobWait g.jobHandle api.openVM) g
    let g := { g with err := api.openVM,
                      vmHandle := if vix.VIX_FAILED api.openVM then g.vmHandle else .vm }
    if vix.VIX_FAILED g.err then
      errorAbort (emit (.log ("Failed to open virtual machine [" ++ fmtD (vix.VIX_ERROR_CODE g.err) ++ "]")) g)
    else
      let g := emit (.releaseHandle g.jobHandle) g
      .next { g with jobHandle := .invalid }

/-- The function `vmGetStatus` (lines 165-176). -/
def vmGetStatus (vix : VixHeader) (api : MockApi) (g : Globals) : Res :=
  let r := api.getProperties g.probes
  let g := emit (.getProperties g.vmHandle r.1 r.2) g
  let g := { g with err := r.1, powerState := r.2, probes := g.probes + 1 }
  if vix.VIX_FAILED g.err then
    errorAbort (emit (.log ("Failed to get virtual machine status [" ++ fmtD (vix.VIX_ERROR_CODE g.err) ++ "]")) g)
  else
    .next g

/-- The test `VIX_POWERSTATE_POWERED_ON & powerState`. -/
def poweredOn (vix : VixHeader) (powerState : Nat) : Bool :=
  vix.VIX_POWERSTATE_POWERED_ON &&& powerState != 0

/-- The test `VIX_POWERSTATE_POWERED_OFF & powerState`. -/
def poweredOff (vix : VixHeader) (powerState : Nat) : Bool :=
  vix.VIX_POWERSTATE_POWERED_OFF &&& powerState != 0

/-- The function `vmStatus` (lines 178-188). -/
def vmStatus (vix : VixHeader) (api : MockApi) (g : Globals) : Res :=
  let g := emit (.log ("Checking status for \"" ++ g.vmxPath ++ "\"")) g
  (vmGetStatus vix api g).andThen fun g =>
    if poweredOn vix g.powerState then
      .next (emit (.log "Virtual machine is powered on") g)
    else
      .next (emit (.log "Virtual machine is powered off") g)

/-- The loop `do … while (VIX_POWERSTATE_POWERED_ON & powerState)` of `vmStart`
(lines 209-225); each iteration uses one unit of fuel. -/
def pollLoop (vix : VixHeader) (api : MockApi) : Nat → Globals → Res
  | 0, g => .polling g
  | fuel + 1, g =>
    match vmGetStatus vix api g with
    | .next g =>
      if poweredOn vix g.powerState then
        let g := emit (.log "Virtual machine running") g
        let g := emit (.sleep POLLINTERVAL) g
        if poweredOn vix g.powerState then pollLoop vix api fuel g else .next g
      else if poweredOff vix g.powerState then
        .next g
      else
        let g := emit (.log ("Virtual machine in transition state [" ++ fmtD g.powerState ++ "]")) g
        let g := emit (.sleep POLLINTERVAL) g
        if poweredOn vix g.powerState then pollLoop vix api fuel g else .next g
    | r => r

/-- The function `vmStart` (lines 189-229). -/
def vmStart (vix : VixHeader) (api : MockApi) (fuel : Nat) (g : Globals) : Res :=
  (vmGetStatus vix api g).andThen fun g =>
    (if poweredOn vix g.powerState then
      .next (emit (.log "Virtual machine already running") g)
    else
      let g := emit (.powerOn g.vmHandle g.powerOptions) g
      let g := { g with jobHandle := .powerOnJob }
      let g := emit (.jobWait g.jobHandle api.powerOn) g
      let g := { g with err := api.powerOn }
      if vix.VIX_FAILED g.err then
        errorAbort (emit (.log ("Failed to start virtual machine [" ++ fmtD (vix.VIX_ERROR_CODE g.err) ++ "]")) g)
      else
        .next g).andThen fun g =>
    let g := emit (.sleep STARTUPWAIT) g
    (pollLoop vix api fuel g).andThen fun g =>
      let g := emit (.releaseHandle g.jobHandle) g
      .next { g with jobHandle := .invalid }

/-- The function `vmStop` (lines 231-247). -/
def vmStop (vix : VixHeader) (api : MockApi) (g : Globals) : Res :=
  let g := emit (.powerOff g.vmHandle vix.VIX_VMPOWEROP_NORMAL) g
  let g := { g with jobHandle := .powerOffJob }
  let g := emit (.jobWait g.jobHandle api.powerOff) g
  let g := { g with err := api.powerOff }
  (if vix.VIX_FAILED g.err then
    errorAbort (emit (.log ("Failed to stop virtual machine, may have already been stopped ["
      ++ fmtD (vix.VIX_ERROR_CODE g.err) ++ "]")) g)
  else
    .next (emit (.log ("Stopped virtual machine [" ++ fmtD (vix.VIX_ERROR_CODE g.err) ++ "]")) g)).andThen
  fun g =>
    let g := emit (.releaseHandle g.jobHandle) g
    .next { g with jobHandle := .invalid }

/-- The function `vmSuspend` (lines 249-264). -/
def vmSuspend (vix : VixHeader) (api : MockApi) (g : Globals) : Res :=
  let g := emit (.suspend g.vmHandle vix.VIX_VMPOWEROP_NORMAL) g
  let g := { g with jobHandle := .suspendJob }
  let g := emit (.jobWait g.jobHandle api.suspend) g
  let g := { g with err := api.suspend }
  (if vix.VIX_FAILED g.err then
    errorAbort (emit (.log ("Failed to suspend virtual machine, may have already been stopped ["
      ++ fmtD (vix.VIX_ERROR_CODE g.err) ++ "]")) g)
  else
    .next (emit (.log ("Suspended virtual machine [" ++ fmtD (vix.VIX_ERROR_CODE g.err) ++ "]")) g)).andThen
  fun g =>
    let g := emit (.releaseHandle g.jobHandle) g
    .next { g with jobHandle := .invalid }

/-- The test of line 281: the argument is `nogui` or `-nogui`. -/
def isNoGui (a : String) : Bool :=
  a == "nogui" || a == "-nogui"

/-- The test of line 284: the argument is `--h`, `--help`, `-h` or `help`. -/
def isHelp (a : String) : Bool :=
  a == "--h" || a == "--help" || a == "-h" || a == "help"

/-- The loop `for (int i = 1; i < argc; i++)` of `main` (lines 280-288), over
the arguments `argv[1]`, …, `argv[argc-1]` still to be visited. -/
def checkFlags (vix : VixHeader) : List String → Globals → Res
  | [], g => .next g
  | a :: rest, g =>
    let g := if isNoGui a then { g with powerOptions := vix.VIX_VMPOWEROP_NORMAL } else g
    if isHelp a then
      .exited EXIT_FAILURE (usage g)
    else
      checkFlags vix rest g

/-- The chain of `strcmp` tests on `command` in `main` (lines 292-307). -/
def dispatch (vix : VixHeader) (api : MockApi) (fuel : Nat) (g : Globals) : Res :=
  if g.command == "start" || g.command == "-start" then
    vmStart vix api fuel g
  else if g.command == "stop" || g.command == "-stop" then
    vmStop vix api g
  else if g.command == "suspend" || g.command == "-suspend" then
    vmSuspend vix api g
  else if g.command == "status" || g.command == "-status" then
    vmStatus vix api g
  else
    .exited EXIT_FAILURE (usage g)

/-- The end of `main` (lines 309-311): the line "Finished" and
`exit(EXIT_SUCCESS)`. -/
def finish (g : Globals) : Res :=
  .exited EXIT_SUCCESS (emit (.log "Finished") g)

/-- The function `main` (lines 267-312); `argv` is the whole vector, with the
program name at index 0, and `argc` is its length. -/
def main (vix : VixHeader) (api : MockApi) (fuel : Nat) (argv : List String) : Res :=
  let g := { initGlobals vix with progName := argv.getD 0 "" }
  if 3 ≤ argv.length then
    let g := { g with command := argv.getD 1 "", vmxPath := argv.getD 2 "" }
    (checkFlags vix (argv.drop 1) g).andThen fun g =>
    (vmConnectOpen vix api g).andThen fun g =>
    (dispatch vix api fuel g).andThen finish
  else
    .exited EXIT_FAILURE (usage g)

/-- A mock API on which every call succeeds and every probe reports `state`. -/
def steadyApi (state : Nat) : MockApi where
  connect := 0
  openVM := 0
  getProperties := fun _ => (0, state)
  powerOn := 0
  powerOff := 0
  suspend := 0

/-- A mock API on which every job succeeds and the i-th probe succeeds with
the state `states i`. -/
def scriptedApi (states : Nat → Nat) : MockApi where
  connect := 0
  openVM := 0
  getProperties := fun i => (0, states i)
  powerOn := 0
  powerOff := 0
  suspend := 0

/-- The event is a power-state query (`Vix_GetProperties`). -/
def Event.isProbe : Event → Bool
  | .getProperties _ _ _ => true
  | _ => false

/-- The event is a power-on request. -/
def Event.isPowerOn : Event → Bool
  | .powerOn _ _ => true
  | _ => false

/-- The event is a request that changes the power state: power-on, power-off
or suspend. -/
def Event.isPowerRequest : Event → Bool
  | .powerOn _ _ => true
  | .powerOff _ _ => true
  | .suspend _ _ => true
  | _ => false

/-- The error value an API call returned, for the two calls that return one. -/
def Event.errorValue : Event → Option Nat
  | .jobWait _ err => some err
  | .getProperties _ err _ => some err
  | _ => none

/-- The event is an API call that reported failure: `VIX_FAILED` holds of the
error value it returned. -/
def Event.isFailure (vix : VixHeader) (e : Event) : Bool :=
  match e.errorValue with
  | some err => vix.VIX_FAILED err
  | none => false

/-- The string is one of the eight command words tested in `main`. -/
def isCommandWord (c : String) : Bool :=
  c == "start" || c == "-start" || c == "stop" || c == "-stop" ||
  c == "suspend" || c == "-suspend" || c == "status" || c == "-status"

/-- The globals after `vmConnectOpen` returned, when it was entered with `g`
and the mock `api`. -/
def connected (api : MockApi) (g : Globals) : Globals :=
  { g with
    err := api.openVM
    hostHandle := .host
    vmHandle := .vm
    jobHandle := .invalid
    out := g.out ++ [.hostConnect, .jobWait .connectJob api.connect, .releaseHandle .connectJob,
      .vmOpen .host g.vmxPath, .jobWait .openJob api.openVM, .releaseHandle .openJob] }

/-- The globals after `vmGetStatus` returned, when it was entered with `g`. -/
def probed (api : MockApi) (g : Globals) : Globals :=
  { g with
    err := (api.getProperties g.probes).1
    powerState := (api.getProperties g.probes).2
    probes := g.probes + 1
    out := g.out ++ [.getProperties g.vmHandle (api.getProperties g.probes).1
      (api.getProperties g.probes).2] }

/-- The trace of `r` is `base` followed by events none of which is a power-on,
power-off or suspend request. -/
def Quiet (base : List Event) (r : Res) : Prop :=
  ∃ l, r.trace = base ++ l ∧ ∀ e ∈ l, Event.isPowerRequest e = false

/-- No event of the list is an API call that reported failure. -/
def Clean (vix : VixHeader) (l : List Event) : Prop :=
  ∀ e ∈ l, Event.isFailure vix e = false

/-- The trace of `g` ends with the abort sequence for the failed call `f`: the
trace is `pre`, the call `f`, the message with the error code of `f` in
brackets, the line "ABORTED", the release of the job handle and of the VM
handle, and the disconnect of the host handle; and a failed `VixJob_Wait` was
waiting on the job handle that is released. -/
def AbortedAt (vix : VixHeader) (pre : List Event) (f : Event) (g : Globals) : Prop :=
  ∃ err pfx, Event.errorValue f = some err ∧
    g.out = pre ++ [f, .log (pfx ++ "[" ++ fmtD (vix.VIX_ERROR_CODE err) ++ "]"),
      .log "ABORTED", .releaseHandle g.jobHandle, .releaseHandle g.vmHandle,
      .disconnect g.hostHandle] ∧
    ∀ j e, f = .jobWait j e → g.jobHandle = j

/-- The run either contains no failed API call, or it exited with
`EXIT_FAILURE` through the abort sequence of its first and only failed call. -/
def FailStop (vix : VixHeader) (r : Res) : Prop :=
  match r with
  | .next g => Clean vix g.out
  | .polling g => Clean vix g.out
  | .exited s g =>
    Clean vix g.out ∨
      (s = EXIT_FAILURE ∧ ∃ pre f, Clean vix pre ∧ Event.isFailure vix f = true ∧
        AbortedAt vix pre f g)

/-- The globals with which `main` calls `vmConnectOpen` when no argument is a
help flag: `command`, `vmxPath` and `powerOptions` are set from `argv`. -/
def parsed (vix : VixHeader) (argv : List String) : Globals :=
  { initGlobals vix with
    progName := argv.getD 0 ""
    command := argv.getD 1 ""
    vmxPath := argv.getD 2 ""
    powerOptions :=
      if (argv.drop 1).any isNoGui then vix.VIX_VMPOWEROP_NORMAL
      else vix.VIX_VMPOWEROP_LAUNCH_GUI }

/-! ## Lemmas on the pieces of `main` -/

theorem checkFlags_no_help (vix : VixHeader) (args : List String) (g : Globals)
    (h : ∀ a ∈ args, isHelp a = false) :
    checkFlags vix args g =
      .next { g with
        powerOptions := if args.any isNoGui then vix.VIX_VMPOWEROP_NORMAL else g.powerOptions } := by
  induction args generalizing g with
  | nil => simp [checkFlags]
  | cons a rest ih =>
    have ha : isHelp a = false := h a (by simp)
    have hrest : ∀ b ∈ rest, isHelp b = false := fun b hb => h b (by simp [hb])
    simp only [checkFlags, ha]
    rw [ih _ hrest]
    by_cases hn : isNoGui a = true
    · simp [hn]
    · simp [hn]

theorem checkFlags_help (vix : VixHeader) (args : List String) (g : Globals)
    (h : ∃ a ∈ args, isHelp a = true) :
    ∃ g2, checkFlags vix args g = .exited EXIT_FAILURE g2 ∧ g2.out = g.out ++ [Event.usage] := by
  induction args generalizing g with
  | nil => simp at h
  | cons a rest ih =>
    by_cases ha : isHelp a = true
    · simp only [checkFlags, ha]
      refine ⟨_, rfl, ?_⟩
      by_cases hn : isNoGui a = true <;> simp [hn, usage, emit]
    · have hrest : ∃ b ∈ rest, isHelp b = true := by
        obtain ⟨b, hb, hb2⟩ := h
        rcases List.mem_cons.mp hb with rfl | hb
        · exact absurd hb2 ha
        · exact ⟨b, hb, hb2⟩
      simp only [checkFlags, ha]
      obtain ⟨g2, h1, h2⟩ := ih (if isNoGui a then { g with powerOptions := vix.VIX_VMPOWEROP_NORMAL } else g) hrest
      refine ⟨g2, by simpa using h1, ?_⟩
      rw [h2]
      by_cases hn : isNoGui a = true <;> simp [hn]

theorem vmConnectOpen_ok (vix : VixHeader) (api : MockApi) (g : Globals)
    (hc : vix.VIX_FAILED api.connect = false) (ho : vix.VIX_FAILED api.openVM = false) :
    vmConnectOpen vix api g = .next (connected api g) := by
  simp [vmConnectOpen, connected, emit, hc, ho]

theorem main_parsed (vix : VixHeader) (api : MockApi) (fuel : Nat) (argv : List String)
    (hlen : 3 ≤ argv.length) (hhelp : ∀ a ∈ argv.drop 1, isHelp a = false) :
    main vix api fuel argv =
      (vmConnectOpen vix api (parsed vix argv)).andThen fun g =>
        (dispatch vix api fuel g).andThen finish := by
  simp only [main, hlen, if_true]
  rw [checkFlags_no_help vix _ _ hhelp]
  simp [Res.andThen, parsed, initGlobals]

theorem main_connected (vix : VixHeader) (api : MockApi) (fuel : Nat) (argv : List String)
    (hlen : 3 ≤ argv.length) (hhelp : ∀ a ∈ argv.drop 1, isHelp a = false)
    (hc : vix.VIX_FAILED api.connect = false) (ho : vix.VIX_FAILED api.openVM = false) :
    main vix api fuel argv =
      (dispatch vix api fuel (connected api (parsed vix argv))).andThen finish := by
  rw [main_parsed vix api fuel argv hlen hhelp, vmConnectOpen_ok vix api _ hc ho]
  simp [Res.andThen]

theorem main_help_flag (vix : VixHeader) (api : MockApi) (fuel : Nat) (argv : List String)
    (hlen : 3 ≤ argv.length) (hhelp : ∃ a ∈ argv.drop 1, isHelp a = true) :
    (main vix api fuel argv).trace = [Event.usage] ∧
      (main vix api fuel argv).status = some EXIT_FAILURE := by
  simp only [main, hlen, if_true]
  obtain ⟨g2, e1, e2⟩ := checkFlags_help vix (argv.drop 1)
    { initGlobals vix with
      progName := argv.getD 0 "", command := argv.getD 1 "", vmxPath := argv.getD 2 "" } hhelp
  rw [e1]
  simp [Res.andThen, Res.trace, Res.globals, Res.status, e2, initGlobals]

/-! ## Arguments, dispatch and exit -/

/-- C6: with fewer than two positional arguments (`argc < 3`) the run consists
of the usage text alone, so no call to the API is made, and the process exits
with `EXIT_FAILURE`. -/
theorem main_too_few_arguments (vix : VixHeader) (api : MockApi) (fuel : Nat)
    (argv : List String) (h : argv.length < 3) :
    (main vix api fuel argv).trace = [Event.usage] ∧
      (main vix api fuel argv).status = some EXIT_FAILURE := by
  have h3 : ¬ 3 ≤ argv.length := by omega
  simp [main, h3, usage, emit, initGlobals, Res.trace, Res.globals, Res.status]

/-- Witness for C6: `vmware-helper help` has one positional argument. -/
theorem main_too_few_arguments_witness :
    ["vmware-helper", "help"].length < 3 ∧
      (main vixSdk (steadyApi 8) 0 ["vmware-helper", "help"]).trace = [Event.usage] ∧
      (main vixSdk (steadyApi 8) 0 ["vmware-helper", "help"]).status = some EXIT_FAILURE :=
  ⟨by decide, main_too_few_arguments vixSdk (steadyApi 8) 0 ["vmware-helper", "help"] (by decide)⟩

/-- C1 (amended): with at least two positional arguments, no help flag, and a
connect and an open that succeed, `main` runs, on the globals left by
`vmConnectOpen`, exactly `vmStart` for `start`/`-start`, `vmStop` for
`stop`/`-stop`, `vmSuspend` for `suspend`/`-suspend` and `vmStatus` for
`status`/`-status`, followed by the end of `main` when the handler returns; for
every other command the run is connect, open, the usage text, and
`exit(EXIT_FAILURE)`. -/
theorem main_dispatches_command (vix : VixHeader) (api : MockApi) (fuel : Nat)
    (argv : List String) (hlen : 3 ≤ argv.length)
    (hhelp : ∀ a ∈ argv.drop 1, isHelp a = false)
    (hc : vix.VIX_FAILED api.connect = false) (ho : vix.VIX_FAILED api.openVM = false) :
    (argv.getD 1 "" = "start" ∨ argv.getD 1 "" = "-start" →
        main vix api fuel argv =
          (vmStart vix api fuel (connected api (parsed vix argv))).andThen finish) ∧
    (argv.getD 1 "" = "stop" ∨ argv.getD 1 "" = "-stop" →
        main vix api fuel argv =
          (vmStop vix api (connected api (parsed vix argv))).andThen finish) ∧
    (argv.getD 1 "" = "suspend" ∨ argv.getD 1 "" = "-suspend" →
        main vix api fuel argv =
          (vmSuspend vix api (connected api (parsed vix argv))).andThen finish) ∧
    (argv.getD 1 "" = "status" ∨ argv.getD 1 "" = "-status" →
        main vix api fuel argv =
          (vmStatus vix api (connected api (parsed vix argv))).andThen finish) ∧
    (isCommandWord (argv.getD 1 "") = false →
        main vix api fuel argv = .exited EXIT_FAILURE (usage (connected api (parsed vix argv))) ∧
        (main vix api fuel argv).trace =
          [.hostConnect, .jobWait .connectJob api.connect, .releaseHandle .connectJob,
            .vmOpen .host (argv.getD 2 ""), .jobWait .openJob api.openVM,
            .releaseHandle .openJob, .usage]) := by
  have hm := main_connected vix api fuel argv hlen hhelp hc ho
  have hcmd : (connected api (parsed vix argv)).command = argv.getD 1 "" := rfl
  refine ⟨?_, ?_, ?_, ?_, ?_⟩
  · intro h
    rw [hm]
    rcases h with h | h <;> simp only [dispatch, hcmd, h] <;> rfl
  · intro h
    rw [hm]
    rcases h with h | h <;> simp only [dispatch, hcmd, h] <;> rfl
  · intro h
    rw [hm]
    rcases h with h | h <;> simp only [dispatch, hcmd, h] <;> rfl
  · intro h
    rw [hm]
    rcases h with h | h <;> simp only [dispatch, hcmd, h] <;> rfl
  · intro h
    rw [hm]
    simp only [isCommandWord, Bool.or_eq_false_iff] at h
    obtain ⟨⟨⟨⟨⟨⟨⟨h1, h2⟩, h3⟩, h4⟩, h5⟩, h6⟩, h7⟩, h8⟩ := h
    simp only [dispatch, hcmd, h1, h2, h3, h4, h5, h6, h7, h8]
    simp [Res.andThen, Res.trace, Res.globals, usage, emit, connected, parsed, initGlobals]

/-- Witness for C1 (amended): `vmware-helper -stop vm.vmx` with a
successful connect and open runs `vmStop`. -/
theorem main_dispatches_command_witness :
    main vixSdk (steadyApi 8) 4 ["vmware-helper", "-stop", "vm.vmx"] =
      (vmStop vixSdk (steadyApi 8)
        (connected (steadyApi 8) (parsed vixSdk ["vmware-helper", "-stop", "vm.vmx"]))).andThen
        finish :=
  (main_dispatches_command vixSdk (steadyApi 8) 4 ["vmware-helper", "-stop", "vm.vmx"]
    (by decide) (by decide) rfl rfl).2.1 (Or.inr rfl)

/-- C1 as stated fails when the connect fails: with the unknown command
`bogus`, two positional arguments and no help flag, the usage text is not
printed; the run is the failed connect and the abort sequence. -/
theorem main_unknown_command_connect_fails :
    3 ≤ ["vmware-helper", "bogus", "vm.vmx"].length ∧
    (∀ a ∈ ["vmware-helper", "bogus", "vm.vmx"].drop 1, isHelp a = false) ∧
    isCommandWord "bogus" = false ∧
    Event.usage ∉
      (main vixSdk { steadyApi 8 with connect := 3 } 4 ["vmware-helper", "bogus", "vm.vmx"]).trace ∧
    (main vixSdk { steadyApi 8 with connect := 3 } 4 ["vmware-helper", "bogus", "vm.vmx"]).trace =
      [.hostConnect, .jobWait .connectJob 3, .log "Failed to connect to host [3]",
        .log "ABORTED", .releaseHandle .connectJob, .releaseHandle .invalid,
        .disconnect .invalid] := by
  decide

/-- C2 at the flag `-help`, which the usage text documents and line 284 does
not test: `vmware-helper status vm.vmx -help` prints no usage text, connects to
the host, runs the status command and exits with `EXIT_SUCCESS`. -/
theorem main_dash_help_not_recognised :
    Event.usage ∉
      (main vixSdk (steadyApi 8) 4 ["vmware-helper", "status", "vm.vmx", "-help"]).trace ∧
    Event.hostConnect ∈
      (main vixSdk (steadyApi 8) 4 ["vmware-helper", "status", "vm.vmx", "-help"]).trace ∧
    (main vixSdk (steadyApi 8) 4 ["vmware-helper", "status", "vm.vmx", "-help"]).status =
      some EXIT_SUCCESS := by
  decide

/-- C8 on a normal completion: `vmware-helper status vm.vmx` with every API
call succeeding exits with `EXIT_SUCCESS` after a successful connect and open,
and the run contains no `VixHost_Disconnect` and no `Vix_ReleaseHandle` of the
VM handle. -/
theorem main_normal_exit_keeps_handles :
    (main vixSdk (steadyApi 8) 4 ["vmware-helper", "status", "vm.vmx"]).status =
      some EXIT_SUCCESS ∧
    Event.jobWait .openJob 0 ∈
      (main vixSdk (steadyApi 8) 4 ["vmware-helper", "status", "vm.vmx"]).trace ∧
    (main vixSdk (steadyApi 8) 4 ["vmware-helper", "status", "vm.vmx"]).trace.count
      (.releaseHandle .vm) = 0 ∧
    (main vixSdk (steadyApi 8) 4 ["vmware-helper", "status", "vm.vmx"]).trace.countP
      (fun e => e matches .disconnect _) = 0 := by
  decide

theorem main_abort_path_releases_once :
    (main vixSdk { steadyApi 8 with powerOff := 42 } 4
      ["vmware-helper", "stop", "vm.vmx"]).status = some EXIT_FAILURE ∧
    (main vixSdk { steadyApi 8 with powerOff := 42 } 4
      ["vmware-helper", "stop", "vm.vmx"]).trace.count (.releaseHandle .vm) = 1 ∧
    (main vixSdk { steadyApi 8 with powerOff := 42 } 4
      ["vmware-helper", "stop", "vm.vmx"]).trace.count (.disconnect .host) = 1 := by
  decide

/-! ## The power-state probe and the polling loop -/

theorem vmGetStatus_ok (vix : VixHeader) (api : MockApi) (g : Globals)
    (h : vix.VIX_FAILED (api.getProperties g.probes).1 = false) :
    vmGetStatus vix api g = .next (probed api g) := by
  simp [vmGetStatus, probed, emit, h]

theorem vmGetStatus_failed (vix : VixHeader) (api : MockApi) (g : Globals)
    (h : vix.VIX_FAILED (api.getProperties g.probes).1 = true) :
    vmGetStatus vix api g = errorAbort (emit (.log ("Failed to get virtual machine status ["
      ++ fmtD (vix.VIX_ERROR_CODE (api.getProperties g.probes).1) ++ "]")) (probed api g)) := by
  simp [vmGetStatus, probed, emit, h]

theorem pollLoop_on (vix : VixHeader) (api : MockApi) (fuel : Nat) (g : Globals)
    (hok : vix.VIX_FAILED (api.getProperties g.probes).1 = false)
    (hon : poweredOn vix (api.getProperties g.probes).2 = true) :
    pollLoop vix api (fuel + 1) g =
      pollLoop vix api fuel
        (emit (.sleep POLLINTERVAL) (emit (.log "Virtual machine running") (probed api g))) := by
  have hp : (probed api g).powerState = (api.getProperties g.probes).2 := rfl
  simp [pollLoop, vmGetStatus_ok vix api g hok, hp, hon, emit]

theorem pollLoop_not_on (vix : VixHeader) (api : MockApi) (fuel : Nat) (g : Globals)
    (hok : vix.VIX_FAILED (api.getProperties g.probes).1 = false)
    (hon : poweredOn vix (api.getProperties g.probes).2 = false) :
    ∃ l, pollLoop vix api (fuel + 1) g = .next { probed api g with out := (probed api g).out ++ l } ∧
      ∀ e ∈ l, Event.isProbe e = false ∧ Event.isPowerRequest e = false ∧
        Event.errorValue e = none := by
  have hp : (probed api g).powerState = (api.getProperties g.probes).2 := rfl
  by_cases hoff : poweredOff vix (api.getProperties g.probes).2 = true
  · refine ⟨[], ?_, by simp⟩
    simp [pollLoop, vmGetStatus_ok vix api g hok, hp, hon, hoff]
    rfl
  · refine ⟨[.log ("Virtual machine in transition state ["
        ++ fmtD (api.getProperties g.probes).2 ++ "]"), .sleep POLLINTERVAL], ?_, ?_⟩
    · simp [pollLoop, vmGetStatus_ok vix api g hok, hp, hon, hoff, emit]
    · simp [Event.isProbe, Event.isPowerRequest, Event.errorValue]

/-- C9 (amended): in the polling loop, a successful probe whose state has
neither the powered-on nor the powered-off bit makes the program print the
"in transition" line, sleep one poll interval and leave the loop: the loop
returns after this probe, whatever fuel is left. -/
theorem pollLoop_transition_stops (vix : VixHeader) (api : MockApi) (fuel : Nat) (g : Globals)
    (hok : vix.VIX_FAILED (api.getProperties g.probes).1 = false)
    (hon : poweredOn vix (api.getProperties g.probes).2 = false)
    (hoff : poweredOff vix (api.getProperties g.probes).2 = false) :
    pollLoop vix api (fuel + 1) g =
      .next { g with
        err := (api.getProperties g.probes).1
        powerState := (api.getProperties g.probes).2
        probes := g.probes + 1
        out := g.out ++
          [.getProperties g.vmHandle (api.getProperties g.probes).1 (api.getProperties g.probes).2,
            .log ("Virtual machine in transition state ["
              ++ fmtD (api.getProperties g.probes).2 ++ "]"),
            .sleep POLLINTERVAL] } := by
  have hp : (probed api g).powerState = (api.getProperties g.probes).2 := rfl
  simp [pollLoop, vmGetStatus_ok vix api g hok, hp, hon, hoff, emit, probed]

/-- Witness for C9 (amended): a loop probe that reports the state 4
ends the loop. -/
theorem pollLoop_transition_stops_witness :
    pollLoop vixSdk (steadyApi 4) 8 (initGlobals vixSdk) =
      .next { initGlobals vixSdk with
        powerState := 4
        probes := 1
        out := [.getProperties .invalid 0 4, .log "Virtual machine in transition state [4]",
          .sleep 1000] } :=
  pollLoop_transition_stops vixSdk (steadyApi 4) 7 (initGlobals vixSdk) rfl rfl rfl

/-- C9 as stated fails: on `vmware-helper start vm.vmx` with every probe
reporting the state 4, which has neither the powered-on bit (8) nor the
powered-off bit (2), the loop does not keep polling; the run makes one probe
before the power-on request and one in the loop, and exits with
`EXIT_SUCCESS`. -/
theorem start_transition_state_ends :
    (∀ i, poweredOn vixSdk ((steadyApi 4).getProperties i).2 = false ∧
      poweredOff vixSdk ((steadyApi 4).getProperties i).2 = false) ∧
    (main vixSdk (steadyApi 4) 8 ["vmware-helper", "start", "vm.vmx"]).status =
      some EXIT_SUCCESS ∧
    (main vixSdk (steadyApi 4) 8 ["vmware-helper", "start", "vm.vmx"]).trace =
      [.hostConnect, .jobWait .connectJob 0, .releaseHandle .connectJob,
        .vmOpen .host "vm.vmx", .jobWait .openJob 0, .releaseHandle .openJob,
        .getProperties .vm 0 4, .powerOn .vm 512, .jobWait .powerOnJob 0, .sleep 0,
        .getProperties .vm 0 4, .log "Virtual machine in transition state [4]", .sleep 1000,
        .releaseHandle .powerOnJob, .log "Finished"] := by
  refine ⟨fun _ => ?_, by decide, by decide⟩
  show poweredOn vixSdk 4 = false ∧ poweredOff vixSdk 4 = false
  decide

/-- C10: with probes that all succeed, the polling loop goes on after a probe
exactly when the probed state has the powered-on bit.  If the loop probes
number 0 to n-1 report powered-on and probe n does not, the loop is still
polling with any fuel up to n and returns with any larger fuel, after exactly
n+1 probes; if every loop probe reports powered-on, the loop is still polling
whatever the fuel.  The globals `g` at loop entry are arbitrary, so this covers
the entry after a successful power-on request. -/
theorem pollLoop_continues_iff_powered_on (vix : VixHeader) (api : MockApi) (g : Globals)
    (hok : ∀ i, vix.VIX_FAILED (api.getProperties (g.probes + i)).1 = false) :
    (∀ n, (∀ i, i < n → poweredOn vix (api.getProperties (g.probes + i)).2 = true) →
        poweredOn vix (api.getProperties (g.probes + n)).2 = false →
        (∀ fuel, fuel ≤ n → ∃ g2, pollLoop vix api fuel g = .polling g2 ∧
          g2.probes = g.probes + fuel) ∧
        (∀ fuel, n < fuel → ∃ g2, pollLoop vix api fuel g = .next g2 ∧
          g2.probes = g.probes + (n + 1) ∧
          g2.out.countP Event.isProbe = g.out.countP Event.isProbe + (n + 1))) ∧
    ((∀ i, poweredOn vix (api.getProperties (g.probes + i)).2 = true) →
        ∀ fuel, ∃ g2, pollLoop vix api fuel g = .polling g2 ∧ g2.probes = g.probes + fuel) := by
  have still : ∀ (fuel : Nat) (g : Globals),
      (∀ i, vix.VIX_FAILED (api.getProperties (g.probes + i)).1 = false) →
      (∀ i, i < fuel → poweredOn vix (api.getProperties (g.probes + i)).2 = true) →
      ∃ g2, pollLoop vix api fuel g = .polling g2 ∧ g2.probes = g.probes + fuel := by
    intro fuel
    induction fuel with
    | zero => intro g _ _; exact ⟨g, by simp [pollLoop], by simp⟩
    | succ k ih =>
      intro g hok hon
      have h0 := hok 0
      have o0 := hon 0 (by omega)
      simp only [Nat.add_zero] at h0 o0
      rw [pollLoop_on vix api k g h0 o0]
      have hpr : (emit (.sleep POLLINTERVAL)
          (emit (.log "Virtual machine running") (probed api g))).probes = g.probes + 1 := rfl
      obtain ⟨g2, e1, e2⟩ := ih _
        (by intro i; rw [hpr, Nat.add_assoc, Nat.add_comm 1 i]; exact hok (i + 1))
        (by intro i hi; rw [hpr, Nat.add_assoc, Nat.add_comm 1 i]; exact hon (i + 1) (by omega))
      exact ⟨g2, e1, by rw [e2, hpr]; omega⟩
  have stops : ∀ (n : Nat) (g : Globals),
      (∀ i, vix.VIX_FAILED (api.getProperties (g.probes + i)).1 = false) →
      (∀ i, i < n → poweredOn vix (api.getProperties (g.probes + i)).2 = true) →
      poweredOn vix (api.getProperties (g.probes + n)).2 = false →
      ∀ fuel, n < fuel → ∃ g2, pollLoop vix api fuel g = .next g2 ∧
        g2.probes = g.probes + (n + 1) ∧
        g2.out.countP Event.isProbe = g.out.countP Event.isProbe + (n + 1) := by
    intro n
    induction n with
    | zero =>
      intro g hok _ hoff fuel hf
      obtain ⟨k, rfl⟩ : ∃ k, fuel = k + 1 := ⟨fuel - 1, by omega⟩
      have h0 := hok 0
      simp only [Nat.add_zero] at h0 hoff
      obtain ⟨l, e1, e2⟩ := pollLoop_not_on vix api k g h0 hoff
      refine ⟨_, e1, rfl, ?_⟩
      have hl : l.countP Event.isProbe = 0 := by
        rw [List.countP_eq_zero]
        intro e he
        simp [(e2 e he).1]
      simp [probed, List.countP_append, hl, Event.isProbe]
    | succ m ih =>
      intro g hok hon hoff fuel hf
      obtain ⟨k, rfl⟩ : ∃ k, fuel = k + 1 := ⟨fuel - 1, by omega⟩
      have h0 := hok 0
      have o0 := hon 0 (by omega)
      simp only [Nat.add_zero] at h0 o0
      rw [pollLoop_on vix api k g h0 o0]
      have hpr : (emit (.sleep POLLINTERVAL)
          (emit (.log "Virtual machine running") (probed api g))).probes = g.probes + 1 := rfl
      obtain ⟨g2, e1, e2, e3⟩ := ih _
        (by intro i; rw [hpr, Nat.add_assoc, Nat.add_comm 1 i]; exact hok (i + 1))
        (by intro i hi; rw [hpr, Nat.add_assoc, Nat.add_comm 1 i]; exact hon (i + 1) (by omega))
        (by rw [hpr, Nat.add_assoc, Nat.add_comm 1 m]; exact hoff)
        k (by omega)
      refine ⟨g2, e1, by rw [e2, hpr]; omega, ?_⟩
      rw [e3]
      simp [emit, probed, List.countP_append, Event.isProbe]
      omega
  refine ⟨fun n hon hoff => ⟨fun fuel hf => ?_, stops n g hok hon hoff⟩, fun hon fuel => ?_⟩
  · exact still fuel g hok (fun i hi => hon i (by omega))
  · exact still fuel g hok (fun i _ => hon i)

/-- Witness for C10: with three probes that report powered-on (8)
followed by powered-off (2), the loop returns after four probes. -/
theorem pollLoop_continues_iff_powered_on_witness :
    ∃ g2, pollLoop vixSdk (scriptedApi fun i => if i < 3 then 8 else 2) 9 (initGlobals vixSdk) =
        .next g2 ∧
      g2.probes = (initGlobals vixSdk).probes + (3 + 1) ∧
      g2.out.countP Event.isProbe = (initGlobals vixSdk).out.countP Event.isProbe + (3 + 1) :=
  ((pollLoop_continues_iff_powered_on vixSdk (scriptedApi fun i => if i < 3 then 8 else 2)
    (initGlobals vixSdk) (fun _ => rfl)).1 3 (by decide) (by decide)).2 9 (by decide)

/-! ## Runs without power requests -/

theorem quiet_here (g : Globals) : Quiet g.out (.next g) :=
  ⟨[], by simp [Res.trace, Res.globals], by simp⟩

theorem quiet_shift (l0 : List Event) {base : List Event} {r : Res} (h : Quiet (base ++ l0) r)
    (h0 : ∀ e ∈ l0, Event.isPowerRequest e = false) : Quiet base r := by
  obtain ⟨l, e1, e2⟩ := h
  refine ⟨l0 ++ l, by rw [e1, List.append_assoc], ?_⟩
  intro e he
  rcases List.mem_append.mp he with he | he
  · exact h0 e he
  · exact e2 e he

theorem quiet_andThen {base : List Event} {r : Res} {k : Globals → Res} (h : Quiet base r)
    (hk : ∀ g2, r = .next g2 → Quiet g2.out (k g2)) : Quiet base (r.andThen k) := by
  cases r with
  | next g =>
    obtain ⟨l, e1, e2⟩ := h
    have e1 : g.out = base ++ l := e1
    have hk2 := hk g rfl
    rw [e1] at hk2
    exact quiet_shift _ hk2 e2
  | exited s g => exact h
  | polling g => exact h

theorem errorAbort_quiet (g : Globals) : Quiet g.out (errorAbort g) :=
  ⟨[.log "ABORTED", .releaseHandle g.jobHandle, .releaseHandle g.vmHandle,
      .disconnect g.hostHandle],
    by simp [errorAbort, emit, Res.trace, Res.globals],
    by simp [Event.isPowerRequest]⟩

theorem finish_quiet (g : Globals) : Quiet g.out (finish g) :=
  ⟨[.log "Finished"], by simp [finish, emit, Res.trace, Res.globals],
    by simp [Event.isPowerRequest]⟩

theorem checkFlags_quiet (vix : VixHeader) (args : List String) (g : Globals) :
    Quiet g.out (checkFlags vix args g) := by
  by_cases h : ∀ a ∈ args, isHelp a = false
  · rw [checkFlags_no_help vix args g h]
    exact ⟨[], by simp [Res.trace, Res.globals], by simp⟩
  · have h2 : ∃ a ∈ args, isHelp a = true := by
      by_contra hc
      exact h fun a ha => by
        by_contra hx
        exact hc ⟨a, ha, by simpa using hx⟩
    obtain ⟨g2, e1, e2⟩ := checkFlags_help vix args g h2
    rw [e1]
    exact ⟨[.usage], by simp [Res.trace, Res.globals, e2], by simp [Event.isPowerRequest]⟩

theorem vmConnectOpen_quiet (vix : VixHeader) (api : MockApi) (g : Globals) :
    Quiet g.out (vmConnectOpen vix api g) := by
  unfold vmConnectOpen
  simp only []
  split
  · refine quiet_shift ([.hostConnect, .jobWait .connectJob api.connect,
      .log ("Failed to connect to host [" ++ fmtD (vix.VIX_ERROR_CODE api.connect) ++ "]")]) ?_
      (by simp [Event.isPowerRequest])
    simpa [emit] using errorAbort_quiet _
  · split
    · refine quiet_shift ([.hostConnect, .jobWait .connectJob api.connect,
        .releaseHandle .connectJob, .vmOpen .host g.vmxPath, .jobWait .openJob api.openVM,
        .log ("Failed to open virtual machine [" ++ fmtD (vix.VIX_ERROR_CODE api.openVM) ++ "]")]) ?_
        (by simp [Event.isPowerRequest])
      simpa [emit] using errorAbort_quiet _
    · exact ⟨[.hostConnect, .jobWait .connectJob api.connect,
        .releaseHandle .connectJob, .vmOpen .host g.vmxPath, .jobWait .openJob api.openVM,
        .releaseHandle .openJob], by simp [emit, Res.trace, Res.globals],
        by simp [Event.isPowerRequest]⟩

theorem checkFlags_next_command (vix : VixHeader) (args : List String) (g g2 : Globals)
    (h : checkFlags vix args g = .next g2) : g2.command = g.command := by
  by_cases hh : ∀ a ∈ args, isHelp a = false
  · rw [checkFlags_no_help vix args g hh] at h
    cases h
    rfl
  · have h2 : ∃ a ∈ args, isHelp a = true := by
      by_contra hc
      exact hh fun a ha => by
        by_contra hx
        exact hc ⟨a, ha, by simpa using hx⟩
    obtain ⟨g3, e1, _⟩ := checkFlags_help vix args g h2
    rw [e1] at h
    cases h

theorem vmConnectOpen_next_command (vix : VixHeader) (api : MockApi) (g g2 : Globals)
    (h : vmConnectOpen vix api g = .next g2) : g2.command = g.command := by
  unfold vmConnectOpen at h
  simp only [] at h
  split at h
  · simp [errorAbort] at h
  · split at h
    · simp [errorAbort] at h
    · cases h
      rfl

theorem log_ne_checking (t p : String) (h : t.data.head? ≠ some 'C') :
    t ≠ "Checking status for \"" ++ p ++ "\"" := by
  intro e
  apply h
  rw [e]
  simp [String.data_append]

theorem vmGetStatus_quiet (vix : VixHeader) (api : MockApi) (g : Globals) :
    Quiet (g.out ++ [.getProperties g.vmHandle (api.getProperties g.probes).1
      (api.getProperties g.probes).2]) (vmGetStatus vix api g) := by
  by_cases h : vix.VIX_FAILED (api.getProperties g.probes).1 = true
  · rw [vmGetStatus_failed vix api g h]
    refine quiet_shift ([.log ("Failed to get virtual machine status ["
      ++ fmtD (vix.VIX_ERROR_CODE (api.getProperties g.probes).1) ++ "]")]) ?_
      (by simp [Event.isPowerRequest])
    simpa [emit, probed] using errorAbort_quiet (emit (.log ("Failed to get virtual machine status ["
      ++ fmtD (vix.VIX_ERROR_CODE (api.getProperties g.probes).1) ++ "]")) (probed api g))
  · rw [vmGetStatus_ok vix api g (by simpa using h)]
    exact quiet_here (probed api g)

theorem pollLoop_probes_first (vix : VixHeader) (api : MockApi) (fuel : Nat) (g : Globals) :
    Quiet (g.out ++ [.getProperties g.vmHandle (api.getProperties g.probes).1
      (api.getProperties g.probes).2]) (pollLoop vix api (fuel + 1) g) := by
  induction fuel generalizing g with
  | zero =>
    by_cases h : vix.VIX_FAILED (api.getProperties g.probes).1 = true
    · have hq := vmGetStatus_quiet vix api g
      rw [vmGetStatus_failed vix api g h] at hq
      simpa [pollLoop, vmGetStatus_failed vix api g h, errorAbort] using hq
    · have hok : vix.VIX_FAILED (api.getProperties g.probes).1 = false := by simpa using h
      by_cases hon : poweredOn vix (api.getProperties g.probes).2 = true
      · rw [pollLoop_on vix api 0 g hok hon]
        exact ⟨[.log "Virtual machine running", .sleep POLLINTERVAL],
          by simp [pollLoop, emit, probed, Res.trace, Res.globals],
          by simp [Event.isPowerRequest]⟩
      · obtain ⟨l, e1, e2⟩ := pollLoop_not_on vix api 0 g hok (by simpa using hon)
        rw [e1]
        exact ⟨l, by simp [probed, Res.trace, Res.globals], fun e he => (e2 e he).2.1⟩
  | succ k ih =>
    by_cases h : vix.VIX_FAILED (api.getProperties g.probes).1 = true
    · have hq := vmGetStatus_quiet vix api g
      rw [vmGetStatus_failed vix api g h] at hq
      simpa [pollLoop, vmGetStatus_failed vix api g h, errorAbort] using hq
    · have hok : vix.VIX_FAILED (api.getProperties g.probes).1 = false := by simpa using h
      by_cases hon : poweredOn vix (api.getProperties g.probes).2 = true
      · rw [pollLoop_on vix api (k + 1) g hok hon]
        have hq := ih (emit (.sleep POLLINTERVAL)
          (emit (.log "Virtual machine running") (probed api g)))
        refine quiet_shift ([.log "Virtual machine running", .sleep POLLINTERVAL,
          .getProperties g.vmHandle (api.getProperties (g.probes + 1)).1
            (api.getProperties (g.probes + 1)).2]) ?_ (by simp [Event.isPowerRequest])
        simpa [emit, probed] using hq
      · obtain ⟨l, e1, e2⟩ := pollLoop_not_on vix api (k + 1) g hok (by simpa using hon)
        rw [e1]
        exact ⟨l, by simp [probed, Res.trace, Res.globals], fun e he => (e2 e he).2.1⟩

theorem pollLoop_quiet (vix : VixHeader) (api : MockApi) (fuel : Nat) (g : Globals) :
    Quiet g.out (pollLoop vix api fuel g) := by
  cases fuel with
  | zero => exact ⟨[], by simp [pollLoop, Res.trace, Res.globals], by simp⟩
  | succ k => exact quiet_shift _ (pollLoop_probes_first vix api k g) (by simp [Event.isPowerRequest])

theorem vmStatus_quiet (vix : VixHeader) (api : MockApi) (g : Globals) :
    Quiet g.out (vmStatus vix api g) := by
  unfold vmStatus
  simp only []
  refine quiet_shift ([.log ("Checking status for \"" ++ g.vmxPath ++ "\""),
    .getProperties g.vmHandle (api.getProperties g.probes).1 (api.getProperties g.probes).2]) ?_
    (by simp [Event.isPowerRequest])
  refine quiet_andThen ?_ ?_
  · simpa [emit] using
      vmGetStatus_quiet vix api (emit (.log ("Checking status for \"" ++ g.vmxPath ++ "\"")) g)
  · intro g2 _
    split
    · exact ⟨[.log "Virtual machine is powered on"], by simp [emit, Res.trace, Res.globals],
        by simp [Event.isPowerRequest]⟩
    · exact ⟨[.log "Virtual machine is powered off"], by simp [emit, Res.trace, Res.globals],
        by simp [Event.isPowerRequest]⟩

theorem dispatch_status (vix : VixHeader) (api : MockApi) (fuel : Nat) (g : Globals)
    (h : g.command = "status" ∨ g.command = "-status") :
    dispatch vix api fuel g = vmStatus vix api g := by
  rcases h with h | h <;> simp only [dispatch, h] <;> rfl

theorem dispatch_start (vix : VixHeader) (api : MockApi) (fuel : Nat) (g : Globals)
    (h : g.command = "start" ∨ g.command = "-start") :
    dispatch vix api fuel g = vmStart vix api fuel g := by
  rcases h with h | h <;> simp only [dispatch, h] <;> rfl

/-- C4 (amended): a run of `status`/`-status` contains no power-on, power-off
or suspend request, whatever the API answers.  When no argument is a help flag
and connect and open succeed, the run contains exactly one power-state query;
when that query succeeds too, the run prints "Virtual machine is powered on" if
the state has the powered-on bit and "Virtual machine is powered off"
otherwise, never both, and exits with `EXIT_SUCCESS`. -/
theorem status_only_queries (vix : VixHeader) (api : MockApi) (fuel : Nat)
    (argv : List String)
    (hcmd : argv.getD 1 "" = "status" ∨ argv.getD 1 "" = "-status") :
    (∀ e ∈ (main vix api fuel argv).trace, Event.isPowerRequest e = false) ∧
    (3 ≤ argv.length → (∀ a ∈ argv.drop 1, isHelp a = false) →
      vix.VIX_FAILED api.connect = false →
      vix.VIX_FAILED api.openVM = false →
      (main vix api fuel argv).trace.countP Event.isProbe = 1 ∧
      (vix.VIX_FAILED (api.getProperties 0).1 = false →
        (main vix api fuel argv).status = some EXIT_SUCCESS ∧
        (Event.log "Virtual machine is powered on" ∈ (main vix api fuel argv).trace ↔
          poweredOn vix (api.getProperties 0).2 = true) ∧
        (Event.log "Virtual machine is powered off" ∈ (main vix api fuel argv).trace ↔
          poweredOn vix (api.getProperties 0).2 = false))) := by
  constructor
  · have hq : Quiet [] (main vix api fuel argv) := by
      unfold main
      simp only []
      split
      swap
      · exact ⟨[.usage], by simp [usage, emit, initGlobals, Res.trace, Res.globals],
          by simp [Event.isPowerRequest]⟩
      refine quiet_andThen (checkFlags_quiet vix _ _) fun g2 h2 => ?_
      refine quiet_andThen (vmConnectOpen_quiet vix api g2) fun g3 h3 => ?_
      have hc3 : g3.command = argv.getD 1 "" := by
        rw [vmConnectOpen_next_command vix api g2 g3 h3,
          checkFlags_next_command vix _ _ g2 h2]
      rw [dispatch_status vix api fuel g3 (by rw [hc3]; exact hcmd)]
      exact quiet_andThen (vmStatus_quiet vix api g3) fun g4 _ => finish_quiet g4
    obtain ⟨l, e1, e2⟩ := hq
    rw [e1]
    simpa using e2
  · intro hlen hhelp hc ho
    have hn1 := fun p => log_ne_checking "Virtual machine is powered on" p (by decide)
    have hn2 := fun p => log_ne_checking "Virtual machine is powered off" p (by decide)
    have hn3 : "Virtual machine is powered on" ≠ "Virtual machine is powered off" := by decide
    have hn4 : "Virtual machine is powered on" ≠ "Finished" := by decide
    have hn5 : "Virtual machine is powered off" ≠ "Finished" := by decide
    have hm := main_connected vix api fuel argv hlen hhelp hc ho
    rw [dispatch_status vix api fuel _ hcmd] at hm
    rw [hm]
    by_cases hp : vix.VIX_FAILED (api.getProperties 0).1 = true
    · simp [vmStatus, vmGetStatus, connected, parsed, initGlobals, emit, hp, Res.andThen,
        errorAbort, Res.trace, Res.globals, Event.isProbe, List.countP_cons]
    · have hp : vix.VIX_FAILED (api.getProperties 0).1 = false := by simpa using hp
      by_cases hon : poweredOn vix (api.getProperties 0).2 = true
      · simp [vmStatus, vmGetStatus, connected, parsed, initGlobals, emit, hp, Res.andThen,
          finish, Res.trace, Res.globals, Event.isProbe, List.countP_cons, hon, Res.status,
          hn1, hn2, hn3, hn3.symm, hn4, hn5]
      · simp [vmStatus, vmGetStatus, connected, parsed, initGlobals, emit, hp, Res.andThen,
          finish, Res.trace, Res.globals, Event.isProbe, List.countP_cons, hon, Res.status,
          hn1, hn2, hn3, hn3.symm, hn4, hn5]

/-- Witness for C4 (amended): `vmware-helper status vm.vmx` on a machine
that is powered on. -/
theorem status_only_queries_witness :
    (main vixSdk (steadyApi 8) 0 ["vmware-helper", "status", "vm.vmx"]).trace.countP
        Event.isProbe = 1 ∧
      (main vixSdk (steadyApi 8) 0 ["vmware-helper", "status", "vm.vmx"]).status =
        some EXIT_SUCCESS ∧
      Event.log "Virtual machine is powered on" ∈
        (main vixSdk (steadyApi 8) 0 ["vmware-helper", "status", "vm.vmx"]).trace :=
  have h := (status_only_queries vixSdk (steadyApi 8) 0 ["vmware-helper", "status", "vm.vmx"]
    (Or.inl rfl)).2 (by decide) (by decide) rfl rfl
  ⟨h.1, (h.2 rfl).1, (h.2 rfl).2.1.mpr (by decide)⟩

/-- C4 as stated fails when the power-state query fails: on
`vmware-helper status vm.vmx` with a successful connect and open and a query
that returns error 5, neither "powered on" nor "powered off" is printed and the
process exits with `EXIT_FAILURE`. -/
theorem status_query_fails :
    vixSdk.VIX_FAILED ({ steadyApi 8 with getProperties := fun _ => (5, 0) } : MockApi).connect
      = false ∧
    vixSdk.VIX_FAILED ({ steadyApi 8 with getProperties := fun _ => (5, 0) } : MockApi).openVM
      = false ∧
    (main vixSdk { steadyApi 8 with getProperties := fun _ => (5, 0) } 0
      ["vmware-helper", "status", "vm.vmx"]).status = some EXIT_FAILURE ∧
    (main vixSdk { steadyApi 8 with getProperties := fun _ => (5, 0) } 0
      ["vmware-helper", "status", "vm.vmx"]).trace =
      [.hostConnect, .jobWait .connectJob 0, .releaseHandle .connectJob,
        .vmOpen .host "vm.vmx", .jobWait .openJob 0, .releaseHandle .openJob,
        .log "Checking status for \"vm.vmx\"", .getProperties .vm 5 0,
        .log "Failed to get virtual machine status [5]", .log "ABORTED",
        .releaseHandle .invalid, .releaseHandle .vm, .disconnect .host] := by
  decide

theorem vmStart_off (vix : VixHeader) (api : MockApi) (fuel : Nat) (g : Globals)
    (hok : vix.VIX_FAILED (api.getProperties g.probes).1 = false)
    (hon : poweredOn vix (api.getProperties g.probes).2 = false) :
    Quiet (g.out ++ [.getProperties g.vmHandle (api.getProperties g.probes).1
        (api.getProperties g.probes).2, .powerOn g.vmHandle g.powerOptions])
      ((vmStart vix api fuel g).andThen finish) := by
  have hp : (probed api g).powerState = (api.getProperties g.probes).2 := rfl
  simp only [vmStart, vmGetStatus_ok vix api g hok, Res.andThen, hp, hon]
  by_cases hf : vix.VIX_FAILED api.powerOn = true
  · refine quiet_shift ([.jobWait .powerOnJob api.powerOn, .log
      ("Failed to start virtual machine [" ++ fmtD (vix.VIX_ERROR_CODE api.powerOn) ++ "]")])
      ?_ (by simp [Event.isPowerRequest])
    simp only [emit, hf, if_true, errorAbort]
    exact ⟨[.log "ABORTED", .releaseHandle .powerOnJob, .releaseHandle g.vmHandle,
      .disconnect g.hostHandle], by simp [Res.trace, Res.globals, probed],
      by simp [Event.isPowerRequest]⟩
  · refine quiet_shift ([.jobWait .powerOnJob api.powerOn, .sleep STARTUPWAIT])
      ?_ (by simp [Event.isPowerRequest])
    simp only [emit, hf]
    refine quiet_andThen (quiet_andThen ?_ fun g2 _ => ?_) fun g3 _ => finish_quiet g3
    · simpa [probed] using pollLoop_quiet vix api fuel _
    · exact ⟨[.releaseHandle g2.jobHandle], by simp [Res.trace, Res.globals],
        by simp [Event.isPowerRequest]⟩

theorem vmStart_on (vix : VixHeader) (api : MockApi) (fuel : Nat) (g : Globals)
    (hok : vix.VIX_FAILED (api.getProperties g.probes).1 = false)
    (hon : poweredOn vix (api.getProperties g.probes).2 = true) :
    Quiet (g.out ++ [.getProperties g.vmHandle (api.getProperties g.probes).1
        (api.getProperties g.probes).2, .log "Virtual machine already running",
        .sleep STARTUPWAIT, .getProperties g.vmHandle (api.getProperties (g.probes + 1)).1
        (api.getProperties (g.probes + 1)).2])
      ((vmStart vix api (fuel + 1) g).andThen finish) := by
  have hp : (probed api g).powerState = (api.getProperties g.probes).2 := rfl
  simp only [vmStart, vmGetStatus_ok vix api g hok, Res.andThen, hp, hon]
  refine quiet_andThen (quiet_andThen ?_ fun g2 _ => ?_) fun g3 _ => finish_quiet g3
  · simpa [probed, emit] using pollLoop_probes_first vix api fuel
      (emit (.sleep STARTUPWAIT) (emit (.log "Virtual machine already running") (probed api g)))
  · exact ⟨[.releaseHandle g2.jobHandle], by simp [emit, Res.trace, Res.globals],
      by simp [Event.isPowerRequest]⟩

/-- C3: a run of `start`/`-start` with no help flag, a successful connect and
open, and a first probe that succeeds without the powered-on bit issues a
power-on request.  If `nogui` or `-nogui` is one of the arguments
`argv[1..]`, the request carries `VIX_VMPOWEROP_NORMAL`; if neither is, it
carries `VIX_VMPOWEROP_LAUNCH_GUI`; and no power-on request with another
option occurs in the run. -/
theorem start_power_on_option (vix : VixHeader) (api : MockApi) (fuel : Nat)
    (argv : List String) (hlen : 3 ≤ argv.length)
    (hcmd : argv.getD 1 "" = "start" ∨ argv.getD 1 "" = "-start")
    (hhelp : ∀ a ∈ argv.drop 1, isHelp a = false)
    (hc : vix.VIX_FAILED api.connect = false) (ho : vix.VIX_FAILED api.openVM = false)
    (hp : vix.VIX_FAILED (api.getProperties 0).1 = false)
    (hoff : poweredOn vix (api.getProperties 0).2 = false) :
    ((∃ a ∈ argv.drop 1, a = "nogui" ∨ a = "-nogui") →
      Event.powerOn .vm vix.VIX_VMPOWEROP_NORMAL ∈ (main vix api fuel argv).trace ∧
      ∀ h o, Event.powerOn h o ∈ (main vix api fuel argv).trace →
        o = vix.VIX_VMPOWEROP_NORMAL) ∧
    ((∀ a ∈ argv.drop 1, a ≠ "nogui" ∧ a ≠ "-nogui") →
      Event.powerOn .vm vix.VIX_VMPOWEROP_LAUNCH_GUI ∈ (main vix api fuel argv).trace ∧
      ∀ h o, Event.powerOn h o ∈ (main vix api fuel argv).trace →
        o = vix.VIX_VMPOWEROP_LAUNCH_GUI) := by
  have hm := main_connected vix api fuel argv hlen hhelp hc ho
  rw [dispatch_start vix api fuel _ hcmd] at hm
  obtain ⟨l, e1, e2⟩ := vmStart_off vix api fuel (connected api (parsed vix argv)) hp hoff
  rw [← hm] at e1
  have hout : (parsed vix argv).out = [] := rfl
  have key : ∀ opts, (parsed vix argv).powerOptions = opts →
      Event.powerOn .vm opts ∈ (main vix api fuel argv).trace ∧
      ∀ h o, Event.powerOn h o ∈ (main vix api fuel argv).trace → o = opts := by
    intro opts hopts
    rw [e1]
    constructor
    · simp [connected, hopts]
    · intro h o hmem
      rcases List.mem_append.mp hmem with hmem | hmem
      · simp only [connected, hopts, hout] at hmem
        simp at hmem
        exact hmem.2
      · have := e2 _ hmem
        simp [Event.isPowerRequest] at this
  constructor
  · intro hex
    apply key
    have : (argv.drop 1).any isNoGui = true := by
      obtain ⟨a, ha, h⟩ := hex
      rw [List.any_eq_true]
      exact ⟨a, ha, by rcases h with h | h <;> simp [isNoGui, h]⟩
    simp only [parsed, this, if_true]
  · intro hno
    apply key
    have : (argv.drop 1).any isNoGui = false := by
      rw [List.any_eq_false]
      intro a ha
      simp [isNoGui, (hno a ha).1, (hno a ha).2]
    simp only [parsed, this, Bool.false_eq_true, if_false]

/-- Witness for C3: `vmware-helper -start vm.vmx -nogui` on a machine
that is powered off. -/
theorem start_power_on_option_witness :
    Event.powerOn .vm vixSdk.VIX_VMPOWEROP_NORMAL ∈
        (main vixSdk (steadyApi 2) 3 ["vmware-helper", "-start", "vm.vmx", "-nogui"]).trace ∧
      ∀ h o, Event.powerOn h o ∈
        (main vixSdk (steadyApi 2) 3 ["vmware-helper", "-start", "vm.vmx", "-nogui"]).trace →
        o = vixSdk.VIX_VMPOWEROP_NORMAL :=
  (start_power_on_option vixSdk (steadyApi 2) 3 ["vmware-helper", "-start", "vm.vmx", "-nogui"]
    (by decide) (Or.inr rfl) (by decide) rfl rfl rfl rfl).1 ⟨"-nogui", by decide, Or.inr rfl⟩

/-- C5: a run of `start`/`-start` with no help flag, a successful connect and
open, and a first probe that succeeds with the powered-on bit set issues no
power-on request, prints "Virtual machine already running" and, with fuel for
at least one iteration of the polling loop, contains at least two power-state
probes: the first one and one made inside the loop. -/
theorem start_already_running (vix : VixHeader) (api : MockApi) (fuel : Nat)
    (argv : List String) (hlen : 3 ≤ argv.length)
    (hcmd : argv.getD 1 "" = "start" ∨ argv.getD 1 "" = "-start")
    (hhelp : ∀ a ∈ argv.drop 1, isHelp a = false)
    (hc : vix.VIX_FAILED api.connect = false) (ho : vix.VIX_FAILED api.openVM = false)
    (hp : vix.VIX_FAILED (api.getProperties 0).1 = false)
    (hon : poweredOn vix (api.getProperties 0).2 = true) (hfuel : 1 ≤ fuel) :
    (∀ h o, Event.powerOn h o ∉ (main vix api fuel argv).trace) ∧
    Event.log "Virtual machine already running" ∈ (main vix api fuel argv).trace ∧
    2 ≤ (main vix api fuel argv).trace.countP Event.isProbe := by
  obtain ⟨k, rfl⟩ : ∃ k, fuel = k + 1 := ⟨fuel - 1, by omega⟩
  have hm := main_connected vix api (k + 1) argv hlen hhelp hc ho
  rw [dispatch_start vix api (k + 1) _ hcmd] at hm
  obtain ⟨l, e1, e2⟩ := vmStart_on vix api k (connected api (parsed vix argv)) hp hon
  rw [← hm] at e1
  rw [e1]
  have hout : (parsed vix argv).out = [] := rfl
  refine ⟨?_, by simp [connected], ?_⟩
  · intro h o hmem
    rcases List.mem_append.mp hmem with hmem | hmem
    · simp [connected, hout] at hmem
    · have := e2 _ hmem
      simp [Event.isPowerRequest] at this
  · simp only [List.countP_append]
    have : List.countP Event.isProbe
        [.getProperties (connected api (parsed vix argv)).vmHandle
          (api.getProperties (connected api (parsed vix argv)).probes).1
          (api.getProperties (connected api (parsed vix argv)).probes).2,
         .log "Virtual machine already running", .sleep STARTUPWAIT,
         .getProperties (connected api (parsed vix argv)).vmHandle
          (api.getProperties ((connected api (parsed vix argv)).probes + 1)).1
          (api.getProperties ((connected api (parsed vix argv)).probes + 1)).2] = 2 := by
      simp [List.countP_cons, Event.isProbe]
    omega

/-- Witness for C5: `vmware-helper start vm.vmx` on a machine that is
powered on. -/
theorem start_already_running_witness :
    (∀ h o, Event.powerOn h o ∉
        (main vixSdk (steadyApi 8) 2 ["vmware-helper", "start", "vm.vmx"]).trace) ∧
      Event.log "Virtual machine already running" ∈
        (main vixSdk (steadyApi 8) 2 ["vmware-helper", "start", "vm.vmx"]).trace ∧
      2 ≤ (main vixSdk (steadyApi 8) 2 ["vmware-helper", "start", "vm.vmx"]).trace.countP
        Event.isProbe :=
  start_already_running vixSdk (steadyApi 8) 2 ["vmware-helper", "start", "vm.vmx"]
    (by decide) (Or.inl rfl) (by decide) rfl rfl rfl rfl (by decide)

/-! ## Failed API calls end in the abort sequence -/

theorem errorAbort_failStop (vix : VixHeader) (g : Globals) (pre : List Event) (f : Event)
    (err : Nat) (pfx text : String) (hout : g.out = pre ++ [f]) (hpre : Clean vix pre)
    (hf : Event.errorValue f = some err) (hfail : vix.VIX_FAILED err = true)
    (hj : ∀ j e, f = .jobWait j e → g.jobHandle = j)
    (htext : text = pfx ++ "[" ++ fmtD (vix.VIX_ERROR_CODE err) ++ "]") :
    FailStop vix (errorAbort (emit (.log text) g)) := by
  simp only [errorAbort, emit, FailStop]
  right
  refine ⟨trivial, pre, f, hpre, by simp [Event.isFailure, hf, hfail], err, pfx, hf, ?_, hj⟩
  simp [hout, htext]

theorem failStop_andThen {vix : VixHeader} {r : Res} {k : Globals → Res} (h : FailStop vix r)
    (hk : ∀ g, r = .next g → Clean vix g.out → FailStop vix (k g)) :
    FailStop vix (r.andThen k) := by
  cases r with
  | next g => exact hk g rfl h
  | exited s g => exact h
  | polling g => exact h

theorem vmGetStatus_failStop (vix : VixHeader) (api : MockApi) (g : Globals)
    (hg : Clean vix g.out) : FailStop vix (vmGetStatus vix api g) := by
  by_cases h : vix.VIX_FAILED (api.getProperties g.probes).1 = true
  · rw [vmGetStatus_failed vix api g h]
    exact errorAbort_failStop vix _ g.out _ (api.getProperties g.probes).1
      "Failed to get virtual machine status " _ rfl hg rfl h (by simp) (by
        rw [show "Failed to get virtual machine status [" =
          "Failed to get virtual machine status " ++ "[" from by decide])
  · rw [vmGetStatus_ok vix api g (by simpa using h)]
    simp only [FailStop, probed, Clean] at hg ⊢
    intro e he
    rcases List.mem_append.mp he with he | he
    · exact hg e he
    · simp only [List.mem_singleton] at he
      simpa [he, Event.isFailure, Event.errorValue] using h

theorem pollLoop_failStop (vix : VixHeader) (api : MockApi) (fuel : Nat) (g : Globals)
    (hg : Clean vix g.out) : FailStop vix (pollLoop vix api fuel g) := by
  induction fuel generalizing g with
  | zero => simpa [pollLoop, FailStop] using hg
  | succ k ih =>
    have hs := vmGetStatus_failStop vix api g hg
    by_cases h : vix.VIX_FAILED (api.getProperties g.probes).1 = true
    · rw [vmGetStatus_failed vix api g h] at hs
      simpa [pollLoop, vmGetStatus_failed vix api g h, errorAbort] using hs
    · have hok : vix.VIX_FAILED (api.getProperties g.probes).1 = false := by simpa using h
      rw [vmGetStatus_ok vix api g hok] at hs
      have hs : Clean vix (probed api g).out := hs
      by_cases hon : poweredOn vix (api.getProperties g.probes).2 = true
      · rw [pollLoop_on vix api k g hok hon]
        apply ih
        intro e he
        simp only [emit, List.append_assoc, List.mem_append] at he
        rcases he with he | he | he
        · exact hs e he
        · simp at he; simp [he, Event.isFailure, Event.errorValue]
        · simp at he; simp [he, Event.isFailure, Event.errorValue]
      · obtain ⟨l, e1, e2⟩ := pollLoop_not_on vix api k g hok (by simpa using hon)
        rw [e1]
        intro e he
        rcases List.mem_append.mp he with he | he
        · exact hs e he
        · simp [Event.isFailure, (e2 e he).2.2]

theorem clean_append_of (vix : VixHeader) (l l2 : List Event) (h : Clean vix l)
    (h2 : ∀ e ∈ l2, Event.isFailure vix e = false) : Clean vix (l ++ l2) := by
  intro e he
  rcases List.mem_append.mp he with he | he
  · exact h e he
  · exact h2 e he

theorem vmConnectOpen_failStop (vix : VixHeader) (api : MockApi) (g : Globals)
    (hg : Clean vix g.out) : FailStop vix (vmConnectOpen vix api g) := by
  unfold vmConnectOpen
  simp only []
  split
  · rename_i h
    exact errorAbort_failStop vix _ (g.out ++ [.hostConnect]) (.jobWait .connectJob api.connect)
      api.connect "Failed to connect to host " _ (by simp [emit])
      (clean_append_of vix _ _ hg (by simp [Event.isFailure, Event.errorValue])) rfl h
      (by intro j e he; cases he; rfl) (by
        rw [show "Failed to connect to host [" = "Failed to connect to host " ++ "[" from by decide])
  · rename_i h
    split
    · rename_i h2
      exact errorAbort_failStop vix _ (g.out ++ [.hostConnect, .jobWait .connectJob api.connect,
          .releaseHandle .connectJob, .vmOpen .host g.vmxPath])
        (.jobWait .openJob api.openVM)
        api.openVM "Failed to open virtual machine " _ (by simp [emit, h])
        (clean_append_of vix _ _ hg (by simpa [Event.isFailure, Event.errorValue] using h)) rfl h2
        (by intro j e he; cases he; rfl) (by
          rw [show "Failed to open virtual machine [" = "Failed to open virtual machine " ++ "["
            from by decide])
    · rename_i h2
      simp only [FailStop, emit, List.append_assoc]
      exact clean_append_of vix _ _ hg
        (by simp [Event.isFailure, Event.errorValue]; exact ⟨by simpa using h, by simpa using h2⟩)

theorem release_failStop (vix : VixHeader) (g : Globals) (hg : Clean vix g.out) :
    FailStop vix (.next { emit (.releaseHandle g.jobHandle) g with jobHandle := .invalid }) := by
  simp only [FailStop, emit]
  exact clean_append_of vix _ _ hg (by simp [Event.isFailure, Event.errorValue])

theorem vmStatus_failStop (vix : VixHeader) (api : MockApi) (g : Globals)
    (hg : Clean vix g.out) : FailStop vix (vmStatus vix api g) := by
  unfold vmStatus
  simp only []
  refine failStop_andThen (vmGetStatus_failStop vix api _ ?_) fun g2 _ h2 => ?_
  · exact clean_append_of vix _ _ hg (by simp [Event.isFailure, Event.errorValue])
  · split
    · exact clean_append_of vix _ _ h2 (by simp [Event.isFailure, Event.errorValue])
    · exact clean_append_of vix _ _ h2 (by simp [Event.isFailure, Event.errorValue])

theorem vmStart_failStop (vix : VixHeader) (api : MockApi) (fuel : Nat) (g : Globals)
    (hg : Clean vix g.out) : FailStop vix (vmStart vix api fuel g) := by
  unfold vmStart
  refine failStop_andThen (vmGetStatus_failStop vix api g hg) fun g2 _ h2 => ?_
  refine failStop_andThen ?_ fun g3 _ h3 => ?_
  · split
    · exact clean_append_of vix _ _ h2 (by simp [Event.isFailure, Event.errorValue])
    · simp only []
      split
      · rename_i h
        exact errorAbort_failStop vix _ (g2.out ++ [.powerOn g2.vmHandle g2.powerOptions])
          (.jobWait .powerOnJob api.powerOn)
          api.powerOn "Failed to start virtual machine " _ (by simp [emit])
          (clean_append_of vix _ _ h2 (by simp [Event.isFailure, Event.errorValue])) rfl h
          (by intro j e he; cases he; rfl) (by
            rw [show "Failed to start virtual machine [" = "Failed to start virtual machine " ++ "["
              from by decide])
      · rename_i h
        simp only [FailStop, emit, List.append_assoc]
        exact clean_append_of vix _ _ h2
          (by simpa [Event.isFailure, Event.errorValue] using h)
  · simp only []
    refine failStop_andThen (pollLoop_failStop vix api fuel _ ?_) fun g4 _ h4 =>
      release_failStop vix g4 h4
    exact clean_append_of vix _ _ h3 (by simp [Event.isFailure, Event.errorValue])

theorem vmStop_failStop (vix : VixHeader) (api : MockApi) (g : Globals)
    (hg : Clean vix g.out) : FailStop vix (vmStop vix api g) := by
  unfold vmStop
  simp only []
  refine failStop_andThen ?_ fun g4 _ h4 => release_failStop vix g4 h4
  split
  · rename_i h
    exact errorAbort_failStop vix _ (g.out ++ [.powerOff g.vmHandle vix.VIX_VMPOWEROP_NORMAL])
      (.jobWait .powerOffJob api.powerOff)
      api.powerOff "Failed to stop virtual machine, may have already been stopped " _
      (by simp [emit])
      (clean_append_of vix _ _ hg (by simp [Event.isFailure, Event.errorValue])) rfl h
      (by intro j e he; cases he; rfl) (by
        rw [show "Failed to stop virtual machine, may have already been stopped [" =
          "Failed to stop virtual machine, may have already been stopped " ++ "[" from by decide])
  · rename_i h
    simp only [FailStop, emit, List.append_assoc]
    exact clean_append_of vix _ _ hg
      (by simpa [Event.isFailure, Event.errorValue] using h)

theorem vmSuspend_failStop (vix : VixHeader) (api : MockApi) (g : Globals)
    (hg : Clean vix g.out) : FailStop vix (vmSuspend vix api g) := by
  unfold vmSuspend
  simp only []
  refine failStop_andThen ?_ fun g4 _ h4 => release_failStop vix g4 h4
  split
  · rename_i h
    exact errorAbort_failStop vix _ (g.out ++ [.suspend g.vmHandle vix.VIX_VMPOWEROP_NORMAL])
      (.jobWait .suspendJob api.suspend)
      api.suspend "Failed to suspend virtual machine, may have already been stopped " _
      (by simp [emit])
      (clean_append_of vix _ _ hg (by simp [Event.isFailure, Event.errorValue])) rfl h
      (by intro j e he; cases he; rfl) (by
        rw [show "Failed to suspend virtual machine, may have already been stopped [" =
          "Failed to suspend virtual machine, may have already been stopped " ++ "["
          from by decide])
  · rename_i h
    simp only [FailStop, emit, List.append_assoc]
    exact clean_append_of vix _ _ hg
      (by simpa [Event.isFailure, Event.errorValue] using h)

theorem usage_exit_failStop (vix : VixHeader) (g : Globals) (hg : Clean vix g.out) :
    FailStop vix (.exited EXIT_FAILURE (usage g)) :=
  Or.inl (clean_append_of vix _ _ hg (by simp [Event.isFailure, Event.errorValue]))

theorem dispatch_failStop (vix : VixHeader) (api : MockApi) (fuel : Nat) (g : Globals)
    (hg : Clean vix g.out) : FailStop vix (dispatch vix api fuel g) := by
  unfold dispatch
  split
  · exact vmStart_failStop vix api fuel g hg
  · split
    · exact vmStop_failStop vix api g hg
    · split
      · exact vmSuspend_failStop vix api g hg
      · split
        · exact vmStatus_failStop vix api g hg
        · exact usage_exit_failStop vix g hg

theorem checkFlags_failStop (vix : VixHeader) (args : List String) (g : Globals)
    (hg : Clean vix g.out) : FailStop vix (checkFlags vix args g) := by
  induction args generalizing g with
  | nil => exact hg
  | cons a rest ih =>
    simp only [checkFlags]
    have hg2 : Clean vix
        (if isNoGui a then { g with powerOptions := vix.VIX_VMPOWEROP_NORMAL } else g).out := by
      split <;> exact hg
    split
    · exact usage_exit_failStop vix _ hg2
    · exact ih _ hg2

theorem main_failStop (vix : VixHeader) (api : MockApi) (fuel : Nat) (argv : List String) :
    FailStop vix (main vix api fuel argv) := by
  have h0 : ∀ g : Globals, g.out = [] → Clean vix g.out := by
    intro g hg e he
    rw [hg] at he
    cases he
  unfold main
  simp only []
  split
  · refine failStop_andThen (checkFlags_failStop vix _ _ (h0 _ rfl)) fun g2 _ h2 => ?_
    refine failStop_andThen (vmConnectOpen_failStop vix api g2 h2) fun g3 _ h3 => ?_
    refine failStop_andThen (dispatch_failStop vix api fuel g3 h3) fun g4 _ h4 => ?_
    exact Or.inl (clean_append_of vix _ _ h4 (by simp [Event.isFailure, Event.errorValue]))
  · exact usage_exit_failStop vix _ (h0 _ rfl)

theorem split_at_failure (vix : VixHeader) (pre post pre2 post2 : List Event) (f f2 : Event)
    (h : pre ++ f :: post = pre2 ++ f2 :: post2) (hpre : Clean vix pre) (hpost : Clean vix post)
    (hf2 : Event.isFailure vix f2 = true) :
    pre2 = pre ∧ f2 = f ∧ post2 = post := by
  induction pre generalizing pre2 with
  | nil =>
    cases pre2 with
    | nil =>
      simp only [List.nil_append, List.cons.injEq] at h
      exact ⟨rfl, h.1.symm, h.2.symm⟩
    | cons a t =>
      simp only [List.nil_append, List.cons_append, List.cons.injEq] at h
      have : f2 ∈ post := by rw [h.2]; simp
      rw [hpost f2 this] at hf2
      exact Bool.noConfusion hf2
  | cons a t ih =>
    cases pre2 with
    | nil =>
      simp only [List.nil_append, List.cons_append, List.cons.injEq] at h
      have : Event.isFailure vix a = false := hpre a (by simp)
      rw [h.1, hf2] at this
      exact Bool.noConfusion this
    | cons b t2 =>
      simp only [List.cons_append, List.cons.injEq] at h
      obtain ⟨e1, e2, e3⟩ := ih t2 h.2 (fun e he => hpre e (by simp [he]))
      exact ⟨by rw [h.1, e1], e2, e3⟩

/-- C7: in every run of `main`, an API call that reports failure (a
`VixJob_Wait` on the connect, open, power-on, power-off or suspend job, or a
`Vix_GetProperties`, whose error value satisfies `VIX_FAILED`) is followed by
exactly this: one message line that ends with `VIX_ERROR_CODE` of the error
value in brackets, the line "ABORTED", `Vix_ReleaseHandle` of the job handle,
`Vix_ReleaseHandle` of the VM handle and `VixHost_Disconnect` of the host
handle; the process then exits with `EXIT_FAILURE`.  A failed `VixJob_Wait`
was waiting on the job handle that is released. -/
theorem failed_call_aborts (vix : VixHeader) (api : MockApi) (fuel : Nat) (argv : List String)
    (pre post : List Event) (f : Event) (err : Nat)
    (htrace : (main vix api fuel argv).trace = pre ++ f :: post)
    (herr : Event.errorValue f = some err) (hfail : vix.VIX_FAILED err = true) :
    (∃ pfx, post =
      [.log (pfx ++ "[" ++ fmtD (vix.VIX_ERROR_CODE err) ++ "]"), .log "ABORTED",
        .releaseHandle (main vix api fuel argv).globals.jobHandle,
        .releaseHandle (main vix api fuel argv).globals.vmHandle,
        .disconnect (main vix api fuel argv).globals.hostHandle]) ∧
    (main vix api fuel argv).status = some EXIT_FAILURE ∧
    (∀ j e, f = .jobWait j e → (main vix api fuel argv).globals.jobHandle = j) := by
  have hf : Event.isFailure vix f = true := by simp [Event.isFailure, herr, hfail]
  have hmem : f ∈ (main vix api fuel argv).trace := by rw [htrace]; simp
  have hinv := main_failStop vix api fuel argv
  have hdirty : ∀ g : Globals, (main vix api fuel argv).trace = g.out → ¬ Clean vix g.out := by
    intro g hg hc
    rw [hg] at hmem
    rw [hc f hmem] at hf
    exact Bool.noConfusion hf
  cases hr : main vix api fuel argv with
  | next g =>
    rw [hr] at hinv hdirty
    exact absurd hinv (hdirty g rfl)
  | polling g =>
    rw [hr] at hinv hdirty
    exact absurd hinv (hdirty g rfl)
  | exited s g =>
    rw [hr] at hinv hdirty htrace
    rcases hinv with hc | ⟨hs, pre0, f0, hpre0, hf0, err0, pfx, herr0, hout, hj⟩
    · exact absurd hc (hdirty g rfl)
    · have htr : pre0 ++ f0 :: [.log (pfx ++ "[" ++ fmtD (vix.VIX_ERROR_CODE err0) ++ "]"),
          .log "ABORTED", .releaseHandle g.jobHandle, .releaseHandle g.vmHandle,
          .disconnect g.hostHandle] = pre ++ f :: post := by
        rw [← htrace]
        exact hout.symm
      obtain ⟨_, e2, e3⟩ := split_at_failure vix _ _ _ _ _ _ htr hpre0
        (by simp [Clean, Event.isFailure, Event.errorValue]) hf
      subst e2
      rw [herr] at herr0
      cases herr0
      exact ⟨⟨pfx, e3⟩, by simp [Res.status, hs], hj⟩

/-- Witness for C7: `vmware-helper stop vm.vmx` with a power-off job
that fails with error 42. -/
theorem failed_call_aborts_witness :
    (main vixSdk { steadyApi 8 with powerOff := 42 } 0 ["vmware-helper", "stop", "vm.vmx"]).trace =
      [.hostConnect, .jobWait .connectJob 0, .releaseHandle .connectJob,
        .vmOpen .host "vm.vmx", .jobWait .openJob 0, .releaseHandle .openJob,
        .powerOff .vm 0] ++
      .jobWait .powerOffJob 42 ::
      [.log "Failed to stop virtual machine, may have already been stopped [42]",
        .log "ABORTED", .releaseHandle .powerOffJob, .releaseHandle .vm, .disconnect .host] ∧
    vixSdk.VIX_FAILED 42 = true ∧
    (main vixSdk { steadyApi 8 with powerOff := 42 } 0
      ["vmware-helper", "stop", "vm.vmx"]).status = some EXIT_FAILURE :=
  ⟨by decide, rfl,
    (failed_call_aborts vixSdk { steadyApi 8 with powerOff := 42 } 0
      ["vmware-helper", "stop", "vm.vmx"]
      [.hostConnect, .jobWait .connectJob 0, .releaseHandle .connectJob,
        .vmOpen .host "vm.vmx", .jobWait .openJob 0, .releaseHandle .openJob,
        .powerOff .vm 0]
      [.log "Failed to stop virtual machine, may have already been stopped [42]",
        .log "ABORTED", .releaseHandle .powerOffJob, .releaseHandle .vm, .disconnect .host]
      (.jobWait .powerOffJob 42) 42 (by decide) rfl rfl).2.1⟩

end VmwareHelper
